import Mathlib

/- Shallow embedding of packages/hoppscotch-sh-admin/src/composables/useConfigHandler.ts
   (the admin-console configuration composable of the hoppscotch repository).
   Pure data transformations are embedded as Lean functions; the two reactive
   references (currentConfigs, workingConfigs) are embedded as an explicit
   state record passed through the mutation wrappers; the optional
   updatedConfigs argument of useConfigHandler is an Option Config, with the
   javascript optional-chaining and nullish-coalescing operators made explicit
   through the helpers optEnabled and optField. -/

namespace ConfigHandler

/-- Field record shared by the google and github provider sections
(client_id, client_secret, callback_url, scope). -/
structure StandardProviderFields where
  client_id : String
  client_secret : String
  callback_url : String
  scope : String
deriving DecidableEq

/-- Field record of the microsoft provider section (adds tenant). -/
structure MicrosoftProviderFields where
  client_id : String
  client_secret : String
  callback_url : String
  scope : String
  tenant : String
deriving DecidableEq

/-- Field record of the oidc provider section. -/
structure OidcProviderFields where
  client_id : String
  client_secret : String
  callback_url : String
  scope : String
  issuer : String
  auth_url : String
  token_url : String
  userinfo_url : String
deriving DecidableEq

/-- Field record of the mail configuration section. -/
structure MailConfigFields where
  mailer_smtp_url : String
  mailer_from_address : String
deriving DecidableEq

/-- A provider section of the Config shape: fixed literal name, enabled flag,
and a field record whose type varies per provider. -/
structure ProviderSection (F : Type) where
  name : String
  enabled : Bool
  fields : F
deriving DecidableEq

/-- The providers block of the Config shape. -/
structure Providers where
  google : ProviderSection StandardProviderFields
  github : ProviderSection StandardProviderFields
  microsoft : ProviderSection MicrosoftProviderFields
  oidc : ProviderSection OidcProviderFields
deriving DecidableEq

/-- The mail configuration section of the Config shape. -/
structure MailConfigs where
  name : String
  enabled : Bool
  fields : MailConfigFields
deriving DecidableEq

/-- The data sharing section of the Config shape. -/
structure DataSharingConfigs where
  name : String
  enabled : Bool
deriving DecidableEq

/-- The nested view-model shape built by the composable. -/
structure Config where
  providers : Providers
  mailConfigs : MailConfigs
  dataSharingConfigs : DataSharingConfigs
deriving DecidableEq

/-- Wire representation of one fetched infra configuration entry. -/
structure InfraConfigEntry where
  name : String
  value : String
deriving DecidableEq

/-- Wire representation of one entry of the infra-config update mutation
argument (type UpdatedConfigs in the source). -/
structure UpdatedConfigs where
  name : String
  value : String
deriving DecidableEq

/-- getFieldValue from onMounted: look the key up in the fetched flat list,
returning the found value, defaulting to the empty string when the key is
absent (find(...)?.value ?? two single quotes). -/
def getFieldValue (infraConfigs : List InfraConfigEntry) (name : String) : String :=
  ((infraConfigs.find? (fun x => x.name == name)).map (fun x => x.value)).getD ""

/-- The view-model builder from onMounted: folds the fetched flat list and the
allowed-auth-provider list into the nested Config shape. -/
def buildCurrentConfigs (infraConfigs : List InfraConfigEntry)
    (allowedAuthProviders : List String) : Config where
  providers :=
    { google :=
        { name := "google"
          enabled := allowedAuthProviders.contains "GOOGLE"
          fields :=
            { client_id := getFieldValue infraConfigs "GOOGLE_CLIENT_ID"
              client_secret := getFieldValue infraConfigs "GOOGLE_CLIENT_SECRET"
              callback_url := getFieldValue infraConfigs "GOOGLE_CALLBACK_URL"
              scope := getFieldValue infraConfigs "GOOGLE_SCOPE" } }
      github :=
        { name := "github"
          enabled := allowedAuthProviders.contains "GITHUB"
          fields :=
            { client_id := getFieldValue infraConfigs "GITHUB_CLIENT_ID"
              client_secret := getFieldValue infraConfigs "GITHUB_CLIENT_SECRET"
              callback_url := getFieldValue infraConfigs "GITHUB_CALLBACK_URL"
              scope := getFieldValue infraConfigs "GITHUB_SCOPE" } }
      microsoft :=
        { name := "microsoft"
          enabled := allowedAuthProviders.contains "MICROSOFT"
          fields :=
            { client_id := getFieldValue infraConfigs "MICROSOFT_CLIENT_ID"
              client_secret := getFieldValue infraConfigs "MICROSOFT_CLIENT_SECRET"
              callback_url := getFieldValue infraConfigs "MICROSOFT_CALLBACK_URL"
              scope := getFieldValue infraConfigs "MICROSOFT_SCOPE"
              tenant := getFieldValue infraConfigs "MICROSOFT_TENANT" } }
      oidc :=
        { name := "oidc"
          enabled := allowedAuthProviders.contains "OIDC"
          fields :=
            { client_id := getFieldValue infraConfigs "OIDC_CLIENT_ID"
              client_secret := getFieldValue infraConfigs "OIDC_CLIENT_SECRET"
              callback_url := getFieldValue infraConfigs "OIDC_CALLBACK_URL"
              scope := getFieldValue infraConfigs "OIDC_SCOPE"
              issuer := getFieldValue infraConfigs "OIDC_ISSUER"
              auth_url := getFieldValue infraConfigs "OIDC_AUTH_URL"
              token_url := getFieldValue infraConfigs "OIDC_TOKEN_URL"
              userinfo_url := getFieldValue infraConfigs "OIDC_USERINFO_URL" } } }
  mailConfigs :=
    { name := "email"
      enabled := allowedAuthProviders.contains "EMAIL"
      fields :=
        { mailer_smtp_url := getFieldValue infraConfigs "MAILER_SMTP_URL"
          mailer_from_address := getFieldValue infraConfigs "MAILER_ADDRESS_FROM" } }
  dataSharingConfigs :=
    { name := "data_sharing"
      enabled :=
        (infraConfigs.find? (fun x =>
          x.name == "ALLOW_ANALYTICS_COLLECTION" && x.value == "true")).isSome }

/-- Optional chaining on the composable argument for a boolean field:
updatedConfigs?.path is undefined (falsy) when the argument is absent. -/
def optEnabled (oc : Option Config) (f : Config → Bool) : Bool :=
  (oc.map f).getD false

/-- Optional chaining plus nullish coalescing on the composable argument for a
string field: updatedConfigs?.path ?? empty string. -/
def optField (oc : Option Config) (f : Config → String) : String :=
  (oc.map f).getD ""

/-- The computed updatedInfraConfigs: folds the (optional) edited Config back
into the flat list required by the infra-config update mutation. The list is
seeded with one empty-named placeholder entry; per section, when the section
is enabled its field entries are pushed under their fixed key names, otherwise
the sections key names are filtered out of the accumulated list; finally the
empty-named placeholder is filtered out. -/
def updatedInfraConfigs (updatedConfigs : Option Config) : List UpdatedConfigs :=
  let config : List UpdatedConfigs := [{ name := "", value := "" }]
  let config :=
    if optEnabled updatedConfigs (fun c => c.providers.google.enabled) then
      config ++
        [{ name := "GOOGLE_CLIENT_ID"
           value := optField updatedConfigs (fun c => c.providers.google.fields.client_id) },
         { name := "GOOGLE_CLIENT_SECRET"
           value := optField updatedConfigs (fun c => c.providers.google.fields.client_secret) },
         { name := "GOOGLE_CALLBACK_URL"
           value := optField updatedConfigs (fun c => c.providers.google.fields.callback_url) },
         { name := "GOOGLE_SCOPE"
           value := optField updatedConfigs (fun c => c.providers.google.fields.scope) }]
    else
      config.filter (fun item =>
        item.name != "GOOGLE_CLIENT_ID" &&
        item.name != "GOOGLE_CLIENT_SECRET" &&
        item.name != "GOOGLE_CALLBACK_URL" &&
        item.name != "GOOGLE_SCOPE")
  let config :=
    if optEnabled updatedConfigs (fun c => c.providers.microsoft.enabled) then
      config ++
        [{ name := "MICROSOFT_CLIENT_ID"
           value := optField updatedConfigs (fun c => c.providers.microsoft.fields.client_id) },
         { name := "MICROSOFT_CLIENT_SECRET"
           value := optField updatedConfigs (fun c => c.providers.microsoft.fields.client_secret) },
         { name := "MICROSOFT_CALLBACK_URL"
           value := optField updatedConfigs (fun c => c.providers.microsoft.fields.callback_url) },
         { name := "MICROSOFT_SCOPE"
           value := optField updatedConfigs (fun c => c.providers.microsoft.fields.scope) },
         { name := "MICROSOFT_TENANT"
           value := optField updatedConfigs (fun c => c.providers.microsoft.fields.tenant) }]
    else
      config.filter (fun item =>
        item.name != "MICROSOFT_CLIENT_ID" &&
        item.name != "MICROSOFT_CLIENT_SECRET" &&
        item.name != "MICROSOFT_CALLBACK_URL" &&
        item.name != "MICROSOFT_SCOPE" &&
        item.name != "MICROSOFT_TENANT")
  let config :=
    if optEnabled updatedConfigs (fun c => c.providers.github.enabled) then
      config ++
        [{ name := "GITHUB_CLIENT_ID"
           value := optField updatedConfigs (fun c => c.providers.github.fields.client_id) },
         { name := "GITHUB_CLIENT_SECRET"
           value := optField updatedConfigs (fun c => c.providers.github.fields.client_secret) },
         { name := "GITHUB_CALLBACK_URL"
           value := optField updatedConfigs (fun c => c.providers.github.fields.callback_url) },
         { name := "GITHUB_SCOPE"
           value := optField updatedConfigs (fun c => c.providers.github.fields.scope) }]
    else
      config.filter (fun item =>
        item.name != "GITHUB_CLIENT_ID" &&
        item.name != "GITHUB_CLIENT_SECRET" &&
        item.name != "GITHUB_CALLBACK_URL" &&
        item.name != "GITHUB_SCOPE")
  let config :=
    if optEnabled updatedConfigs (fun c => c.providers.oidc.enabled) then
      config ++
        [{ name := "OIDC_CLIENT_ID"
           value := optField updatedConfigs (fun c => c.providers.oidc.fields.client_id) },
         { name := "OIDC_CLIENT_SECRET"
           value := optField updatedConfigs (fun c => c.providers.oidc.fields.client_secret) },
         { name := "OIDC_CALLBACK_URL"
           value := optField updatedConfigs (fun c => c.providers.oidc.fields.callback_url) },
         { name := "OIDC_SCOPE"
           value := optField updatedConfigs (fun c => c.providers.oidc.fields.scope) },
         { name := "OIDC_ISSUER"
           value := optField updatedConfigs (fun c => c.providers.oidc.fields.issuer) },
         { name := "OIDC_AUTH_URL"
           value := optField updatedConfigs (fun c => c.providers.oidc.fields.auth_url) },
         { name := "OIDC_TOKEN_URL"
           value := optField updatedConfigs (fun c => c.providers.oidc.fields.token_url) },
         { name := "OIDC_USERINFO_URL"
           value := optField updatedConfigs (fun c => c.providers.oidc.fields.userinfo_url) }]
    else
      config.filter (fun item =>
        item.name != "OIDC_CLIENT_ID" &&
        item.name != "OIDC_CLIENT_SECRET" &&
        item.name != "OIDC_CALLBACK_URL" &&
        item.name != "OIDC_SCOPE" &&
        item.name != "OIDC_ISSUER" &&
        item.name != "OIDC_AUTH_URL" &&
        item.name != "OIDC_TOKEN_URL" &&
        item.name != "OIDC_USERINFO_URL")
  let config :=
    if optEnabled updatedConfigs (fun c => c.mailConfigs.enabled) then
      config ++
        [{ name := "MAILER_SMTP_URL"
           value := optField updatedConfigs (fun c => c.mailConfigs.fields.mailer_smtp_url) },
         { name := "MAILER_ADDRESS_FROM"
           value := optField updatedConfigs (fun c => c.mailConfigs.fields.mailer_from_address) }]
    else
      config.filter (fun item =>
        item.name != "MAILER_SMTP_URL" && item.name != "MAILER_ADDRESS_FROM")
  config.filter (fun item => item.name != "")

/-- One directive of the provider enable/disable mutation argument. -/
structure AuthProviderDirective where
  provider : String
  status : String
deriving DecidableEq

/-- The computed updatedAllowedAuthProviders: the fixed 4-element directive
list for the provider enable/disable mutation. -/
def updatedAllowedAuthProviders (updatedConfigs : Option Config) :
    List AuthProviderDirective :=
  [{ provider := "GOOGLE"
     status :=
       if optEnabled updatedConfigs (fun c => c.providers.google.enabled) then "ENABLE"
       else "DISABLE" },
   { provider := "MICROSOFT"
     status :=
       if optEnabled updatedConfigs (fun c => c.providers.microsoft.enabled) then "ENABLE"
       else "DISABLE" },
   { provider := "GITHUB"
     status :=
       if optEnabled updatedConfigs (fun c => c.providers.github.enabled) then "ENABLE"
       else "DISABLE" },
   { provider := "EMAIL"
     status :=
       if optEnabled updatedConfigs (fun c => c.mailConfigs.enabled) then "ENABLE"
       else "DISABLE" }]

/-- isFieldEmpty: a field is empty when its trimmed value is the empty string. -/
def isFieldEmpty (field : String) : Bool :=
  field.trim == ""

/-- The loosely typed ConfigSection shape of the validator: enabled flag plus a
string record, embedded as an ordered key/value list. -/
structure ConfigSection where
  enabled : Bool
  fields : List (String × String)

/-- Object.values on a record embedded as an ordered key/value list: the values
in declaration (insertion) order. -/
def objectValues (fields : List (String × String)) : List String :=
  fields.map (fun kv => kv.2)

/-- Widening of a google/github provider section to the ConfigSection shape
(structural typing in the source). -/
def standardToSection (p : ProviderSection StandardProviderFields) : ConfigSection where
  enabled := p.enabled
  fields :=
    [("client_id", p.fields.client_id), ("client_secret", p.fields.client_secret),
     ("callback_url", p.fields.callback_url), ("scope", p.fields.scope)]

/-- Widening of the microsoft provider section to the ConfigSection shape. -/
def microsoftToSection (p : ProviderSection MicrosoftProviderFields) : ConfigSection where
  enabled := p.enabled
  fields :=
    [("client_id", p.fields.client_id), ("client_secret", p.fields.client_secret),
     ("callback_url", p.fields.callback_url), ("scope", p.fields.scope),
     ("tenant", p.fields.tenant)]

/-- Widening of the mail configuration section to the ConfigSection shape. -/
def mailToSection (m : MailConfigs) : ConfigSection where
  enabled := m.enabled
  fields :=
    [("mailer_smtp_url", m.fields.mailer_smtp_url),
     ("mailer_from_address", m.fields.mailer_from_address)]

/-- The validator: true when some section among github, google, microsoft and
mail is enabled and has some field whose trimmed value is empty. -/
def AreAnyConfigFieldsEmpty (config : Config) : Bool :=
  let sections : List ConfigSection :=
    [standardToSection config.providers.github,
     standardToSection config.providers.google,
     microsoftToSection config.providers.microsoft,
     mailToSection config.mailConfigs]
  sections.any (fun sec => sec.enabled && (objectValues sec.fields).any isFieldEmpty)

/-- Result of awaiting mutation.executeMutation(variables): only the error
field is inspected by the dispatcher. -/
structure MutationResult where
  error : Option String
deriving DecidableEq

/-- The generic mutation dispatcher executeMutation: run the mutation with the
given variables; on a returned error fire one toast carrying the
caller-supplied localized message key and return false, otherwise return true
with no toast. The returned pair is (success flag, list of fired toast keys). -/
def executeMutation {V : Type} (mutation : V → MutationResult) (vars : V)
    (errorMessage : String) : Bool × List String :=
  let result := mutation vars
  match result.error with
  | some _ => (false, [errorMessage])
  | none => (true, [])

/-- Call site updateAuthProvider: dispatch the provider enable/disable
mutation with the 4-directive list and the auth-provider failure key. -/
def updateAuthProvider (updatedConfigs : Option Config)
    (updateProviderStatus : List AuthProviderDirective → MutationResult) :
    Bool × List String :=
  executeMutation updateProviderStatus (updatedAllowedAuthProviders updatedConfigs)
    "configs.auth_providers.update_failure"

/-- Call site updateInfraConfigs: dispatch the infra-config update mutation
with the flat updated list; the source passes the mail-config failure key
here. -/
def updateInfraConfigs (updatedConfigs : Option Config)
    (updateInfraConfigsMutation : List UpdatedConfigs → MutationResult) :
    Bool × List String :=
  executeMutation updateInfraConfigsMutation (updatedInfraConfigs updatedConfigs)
    "configs.mail_configs.update_failure"

/-- Call site resetInfraConfigs: dispatch the reset mutation with no
variables (undefined, embedded as Unit). -/
def resetInfraConfigs (resetInfraConfigsMutation : Unit → MutationResult) :
    Bool × List String :=
  executeMutation resetInfraConfigsMutation ()
    "configs.reset.failure"

/-- The status argument sent by the data-sharing toggle call site. -/
def dataSharingStatus (updatedConfigs : Option Config) : String :=
  if optEnabled updatedConfigs (fun c => c.dataSharingConfigs.enabled) then "ENABLE"
  else "DISABLE"

/-- Call site updateDataSharingConfigs: dispatch the analytics toggle mutation
with the ENABLE/DISABLE status and the data-sharing failure key. -/
def updateDataSharingConfigs (updatedConfigs : Option Config)
    (toggleDataSharingMutation : String → MutationResult) :
    Bool × List String :=
  executeMutation toggleDataSharingMutation (dataSharingStatus updatedConfigs)
    "configs.data_sharing.update_failure"

/-- The two reactive references of the composable, as an explicit state
record: currentConfigs and workingConfigs (undefined before mount). -/
structure HandlerState where
  currentConfigs : Option Config
  workingConfigs : Option Config
deriving DecidableEq

/-- State-passing form of the dispatcher: the body of executeMutation in the
source contains no assignment to currentConfigs or workingConfigs, so the
embedded transformer carries the state through unchanged. -/
def executeMutationSt {V : Type} (s : HandlerState) (mutation : V → MutationResult)
    (vars : V) (errorMessage : String) : (Bool × List String) × HandlerState :=
  (executeMutation mutation vars errorMessage, s)

/-- State-passing form of updateAuthProvider (no assignment to the two
references in the source). -/
def updateAuthProviderSt (s : HandlerState) (updatedConfigs : Option Config)
    (m : List AuthProviderDirective → MutationResult) :
    (Bool × List String) × HandlerState :=
  executeMutationSt s m (updatedAllowedAuthProviders updatedConfigs)
    "configs.auth_providers.update_failure"

/-- State-passing form of updateInfraConfigs. -/
def updateInfraConfigsSt (s : HandlerState) (updatedConfigs : Option Config)
    (m : List UpdatedConfigs → MutationResult) :
    (Bool × List String) × HandlerState :=
  executeMutationSt s m (updatedInfraConfigs updatedConfigs)
    "configs.mail_configs.update_failure"

/-- State-passing form of resetInfraConfigs. -/
def resetInfraConfigsSt (s : HandlerState) (m : Unit → MutationResult) :
    (Bool × List String) × HandlerState :=
  executeMutationSt s m ()
    "configs.reset.failure"

/-- State-passing form of updateDataSharingConfigs. -/
def updateDataSharingConfigsSt (s : HandlerState) (updatedConfigs : Option Config)
    (m : String → MutationResult) :
    (Bool × List String) × HandlerState :=
  executeMutationSt s m (dataSharingStatus updatedConfigs)
    "configs.data_sharing.update_failure"

/-- The entries pushed for the google section when it is enabled. -/
def googleEntries (c : Config) : List UpdatedConfigs :=
  [{ name := "GOOGLE_CLIENT_ID", value := c.providers.google.fields.client_id },
   { name := "GOOGLE_CLIENT_SECRET", value := c.providers.google.fields.client_secret },
   { name := "GOOGLE_CALLBACK_URL", value := c.providers.google.fields.callback_url },
   { name := "GOOGLE_SCOPE", value := c.providers.google.fields.scope }]

/-- The entries pushed for the microsoft section when it is enabled. -/
def microsoftEntries (c : Config) : List UpdatedConfigs :=
  [{ name := "MICROSOFT_CLIENT_ID", value := c.providers.microsoft.fields.client_id },
   { name := "MICROSOFT_CLIENT_SECRET", value := c.providers.microsoft.fields.client_secret },
   { name := "MICROSOFT_CALLBACK_URL", value := c.providers.microsoft.fields.callback_url },
   { name := "MICROSOFT_SCOPE", value := c.providers.microsoft.fields.scope },
   { name := "MICROSOFT_TENANT", value := c.providers.microsoft.fields.tenant }]

/-- The entries pushed for the github section when it is enabled. -/
def githubEntries (c : Config) : List UpdatedConfigs :=
  [{ name := "GITHUB_CLIENT_ID", value := c.providers.github.fields.client_id },
   { name := "GITHUB_CLIENT_SECRET", value := c.providers.github.fields.client_secret },
   { name := "GITHUB_CALLBACK_URL", value := c.providers.github.fields.callback_url },
   { name := "GITHUB_SCOPE", value := c.providers.github.fields.scope }]

/-- The entries pushed for the oidc section when it is enabled. -/
def oidcEntries (c : Config) : List UpdatedConfigs :=
  [{ name := "OIDC_CLIENT_ID", value := c.providers.oidc.fields.client_id },
   { name := "OIDC_CLIENT_SECRET", value := c.providers.oidc.fields.client_secret },
   { name := "OIDC_CALLBACK_URL", value := c.providers.oidc.fields.callback_url },
   { name := "OIDC_SCOPE", value := c.providers.oidc.fields.scope },
   { name := "OIDC_ISSUER", value := c.providers.oidc.fields.issuer },
   { name := "OIDC_AUTH_URL", value := c.providers.oidc.fields.auth_url },
   { name := "OIDC_TOKEN_URL", value := c.providers.oidc.fields.token_url },
   { name := "OIDC_USERINFO_URL", value := c.providers.oidc.fields.userinfo_url }]

/-- The entries pushed for the mail section when it is enabled. -/
def mailEntries (c : Config) : List UpdatedConfigs :=
  [{ name := "MAILER_SMTP_URL", value := c.mailConfigs.fields.mailer_smtp_url },
   { name := "MAILER_ADDRESS_FROM", value := c.mailConfigs.fields.mailer_from_address }]

/-- Identifier of one enable/exclude section of the infra-config reverse
transform. -/
inductive SectionId where
  | google
  | microsoft
  | github
  | oidc
  | mail
deriving DecidableEq

/-- The enabled flag of a section of the Config shape. -/
def sectionEnabled (c : Config) : SectionId → Bool
  | SectionId.google => c.providers.google.enabled
  | SectionId.microsoft => c.providers.microsoft.enabled
  | SectionId.github => c.providers.github.enabled
  | SectionId.oidc => c.providers.oidc.enabled
  | SectionId.mail => c.mailConfigs.enabled

/-- The fixed key names of a section, in the order the reverse transform
pushes them. -/
def sectionKeys : SectionId → List String
  | SectionId.google =>
      ["GOOGLE_CLIENT_ID", "GOOGLE_CLIENT_SECRET", "GOOGLE_CALLBACK_URL", "GOOGLE_SCOPE"]
  | SectionId.microsoft =>
      ["MICROSOFT_CLIENT_ID", "MICROSOFT_CLIENT_SECRET", "MICROSOFT_CALLBACK_URL",
       "MICROSOFT_SCOPE", "MICROSOFT_TENANT"]
  | SectionId.github =>
      ["GITHUB_CLIENT_ID", "GITHUB_CLIENT_SECRET", "GITHUB_CALLBACK_URL", "GITHUB_SCOPE"]
  | SectionId.oidc =>
      ["OIDC_CLIENT_ID", "OIDC_CLIENT_SECRET", "OIDC_CALLBACK_URL", "OIDC_SCOPE",
       "OIDC_ISSUER", "OIDC_AUTH_URL", "OIDC_TOKEN_URL", "OIDC_USERINFO_URL"]
  | SectionId.mail =>
      ["MAILER_SMTP_URL", "MAILER_ADDRESS_FROM"]

/-- All 23 section key names in the declaration order of the reverse
transform: google, microsoft, github, oidc, mail. -/
def infraSectionKeys : List String :=
  sectionKeys SectionId.google ++ sectionKeys SectionId.microsoft ++
  sectionKeys SectionId.github ++ sectionKeys SectionId.oidc ++
  sectionKeys SectionId.mail

/-- A Config with every sections enabled flag set to true and all other data
kept. -/
def enableAllSections (c : Config) : Config where
  providers :=
    { google := { c.providers.google with enabled := true }
      github := { c.providers.github with enabled := true }
      microsoft := { c.providers.microsoft with enabled := true }
      oidc := { c.providers.oidc with enabled := true } }
  mailConfigs := { c.mailConfigs with enabled := true }
  dataSharingConfigs := c.dataSharingConfigs

/-- The 23 (wire key, stored field value) pairs of a Config, pairing every
string field of the view model with the fixed key it is built from. -/
def builtFieldBindings (c : Config) : List (String × String) :=
  [("GOOGLE_CLIENT_ID", c.providers.google.fields.client_id),
   ("GOOGLE_CLIENT_SECRET", c.providers.google.fields.client_secret),
   ("GOOGLE_CALLBACK_URL", c.providers.google.fields.callback_url),
   ("GOOGLE_SCOPE", c.providers.google.fields.scope),
   ("GITHUB_CLIENT_ID", c.providers.github.fields.client_id),
   ("GITHUB_CLIENT_SECRET", c.providers.github.fields.client_secret),
   ("GITHUB_CALLBACK_URL", c.providers.github.fields.callback_url),
   ("GITHUB_SCOPE", c.providers.github.fields.scope),
   ("MICROSOFT_CLIENT_ID", c.providers.microsoft.fields.client_id),
   ("MICROSOFT_CLIENT_SECRET", c.providers.microsoft.fields.client_secret),
   ("MICROSOFT_CALLBACK_URL", c.providers.microsoft.fields.callback_url),
   ("MICROSOFT_SCOPE", c.providers.microsoft.fields.scope),
   ("MICROSOFT_TENANT", c.providers.microsoft.fields.tenant),
   ("OIDC_CLIENT_ID", c.providers.oidc.fields.client_id),
   ("OIDC_CLIENT_SECRET", c.providers.oidc.fields.client_secret),
   ("OIDC_CALLBACK_URL", c.providers.oidc.fields.callback_url),
   ("OIDC_SCOPE", c.providers.oidc.fields.scope),
   ("OIDC_ISSUER", c.providers.oidc.fields.issuer),
   ("OIDC_AUTH_URL", c.providers.oidc.fields.auth_url),
   ("OIDC_TOKEN_URL", c.providers.oidc.fields.token_url),
   ("OIDC_USERINFO_URL", c.providers.oidc.fields.userinfo_url),
   ("MAILER_SMTP_URL", c.mailConfigs.fields.mailer_smtp_url),
   ("MAILER_ADDRESS_FROM", c.mailConfigs.fields.mailer_from_address)]

/-- The wire keys of builtFieldBindings, in binding order (google, github,
microsoft, oidc, mail — the declaration order of the view-model builder). -/
def builtBindingKeys : List String :=
  ["GOOGLE_CLIENT_ID", "GOOGLE_CLIENT_SECRET", "GOOGLE_CALLBACK_URL", "GOOGLE_SCOPE",
   "GITHUB_CLIENT_ID", "GITHUB_CLIENT_SECRET", "GITHUB_CALLBACK_URL", "GITHUB_SCOPE",
   "MICROSOFT_CLIENT_ID", "MICROSOFT_CLIENT_SECRET", "MICROSOFT_CALLBACK_URL",
   "MICROSOFT_SCOPE", "MICROSOFT_TENANT",
   "OIDC_CLIENT_ID", "OIDC_CLIENT_SECRET", "OIDC_CALLBACK_URL", "OIDC_SCOPE",
   "OIDC_ISSUER", "OIDC_AUTH_URL", "OIDC_TOKEN_URL", "OIDC_USERINFO_URL",
   "MAILER_SMTP_URL", "MAILER_ADDRESS_FROM"]

/-- A concrete Config with every section disabled but non-empty stored field
values, used to instantiate universally quantified theorems. -/
def sampleDisabledConfig : Config where
  providers :=
    { google :=
        { name := "google", enabled := false
          fields :=
            { client_id := "gid", client_secret := "gsec"
              callback_url := "gcb", scope := "gscope" } }
      github :=
        { name := "github", enabled := false
          fields :=
            { client_id := "hid", client_secret := "hsec"
              callback_url := "hcb", scope := "hscope" } }
      microsoft :=
        { name := "microsoft", enabled := false
          fields :=
            { client_id := "mid", client_secret := "msec"
              callback_url := "mcb", scope := "mscope", tenant := "mten" } }
      oidc :=
        { name := "oidc", enabled := false
          fields :=
            { client_id := "oid", client_secret := "osec"
              callback_url := "ocb", scope := "oscope", issuer := "oiss"
              auth_url := "oauth", token_url := "otok", userinfo_url := "ouinfo" } } }
  mailConfigs :=
    { name := "email", enabled := false
      fields := { mailer_smtp_url := "smtp", mailer_from_address := "from" } }
  dataSharingConfigs := { name := "data_sharing", enabled := false }

/-- Characterization of the infra-config reverse transform on a present
Config: the output is the concatenation, in declaration order, of the entry
blocks of exactly the enabled sections, the placeholder seed removed. -/
theorem updatedInfraConfigs_eq_sections (c : Config) :
    updatedInfraConfigs (some c) =
      (if c.providers.google.enabled then googleEntries c else []) ++
      (if c.providers.microsoft.enabled then microsoftEntries c else []) ++
      (if c.providers.github.enabled then githubEntries c else []) ++
      (if c.providers.oidc.enabled then oidcEntries c else []) ++
      (if c.mailConfigs.enabled then mailEntries c else []) := by
  obtain ⟨⟨⟨gn, ge, gf⟩, ⟨hn, he, hf⟩, ⟨mn, me, mf⟩, ⟨onm, oe, od⟩⟩, ⟨en, ee, ef⟩, ds⟩ := c
  cases ge <;> cases he <;> cases me <;> cases oe <;> cases ee <;> rfl

/-- The key names of the infra-config reverse transform output are the
concatenation of the key-name blocks of exactly the enabled sections. -/
theorem updatedInfraConfigs_names_eq (c : Config) :
    (updatedInfraConfigs (some c)).map (fun e => e.name) =
      (if c.providers.google.enabled then sectionKeys SectionId.google else []) ++
      (if c.providers.microsoft.enabled then sectionKeys SectionId.microsoft else []) ++
      (if c.providers.github.enabled then sectionKeys SectionId.github else []) ++
      (if c.providers.oidc.enabled then sectionKeys SectionId.oidc else []) ++
      (if c.mailConfigs.enabled then sectionKeys SectionId.mail else []) := by
  rw [updatedInfraConfigs_eq_sections]
  simp only [List.map_append, apply_ite (List.map (fun (e : UpdatedConfigs) => e.name))]
  rfl

/-- A key that no entry of the list carries is looked up to the empty
string. -/
theorem getFieldValue_eq_empty (infra : List InfraConfigEntry) (k : String)
    (h : ∀ e ∈ infra, e.name ≠ k) : getFieldValue infra k = "" := by
  unfold getFieldValue
  rw [List.find?_eq_none.mpr]
  · rfl
  · intro x hx
    simpa using h x hx

/-- C1: building a Config from any flat infra-config list and any provider
list, then reverse-transforming it with every section enabled, yields the 23
fixed keys in declaration order, each paired with the value the input list
holds for that key; keys absent from the input appear with the empty string.
In particular this holds for inputs drawn from the fixed key set. -/
theorem build_then_reverse_roundtrip (infra : List InfraConfigEntry)
    (providers : List String) :
    updatedInfraConfigs (some (enableAllSections (buildCurrentConfigs infra providers))) =
      infraSectionKeys.map (fun k => { name := k, value := getFieldValue infra k }) :=
  rfl

/-- C2: the built dataSharingConfigs.enabled flag is true exactly when the
fetched list holds an entry named ALLOW_ANALYTICS_COLLECTION whose value is
the exact string true; any other value or absence gives false. -/
theorem dataSharing_enabled_iff (infra : List InfraConfigEntry)
    (providers : List String) :
    (buildCurrentConfigs infra providers).dataSharingConfigs.enabled = true ↔
      ∃ e ∈ infra, e.name = "ALLOW_ANALYTICS_COLLECTION" ∧ e.value = "true" := by
  simp [buildCurrentConfigs, List.find?_isSome]

/-- C4: the auth-provider reverse transform always returns exactly the four
directives for GOOGLE, MICROSOFT, GITHUB and EMAIL, each carrying ENABLE when
the matching sections enabled flag is true and DISABLE otherwise. -/
theorem updatedAllowedAuthProviders_spec (c : Config) :
    (updatedAllowedAuthProviders (some c)).length = 4 ∧
    updatedAllowedAuthProviders (some c) =
      [{ provider := "GOOGLE"
         status := if c.providers.google.enabled then "ENABLE" else "DISABLE" },
       { provider := "MICROSOFT"
         status := if c.providers.microsoft.enabled then "ENABLE" else "DISABLE" },
       { provider := "GITHUB"
         status := if c.providers.github.enabled then "ENABLE" else "DISABLE" },
       { provider := "EMAIL"
         status := if c.mailConfigs.enabled then "ENABLE" else "DISABLE" }] :=
  ⟨rfl, rfl⟩

/-- C7: the view-model builder is total (it never raises), and every built
field whose wire key is absent from the fetched flat list is the empty
string: any (key, value) binding of the built Config whose key no input entry
carries has the empty string as its value. -/
theorem builder_defaults_missing_keys (infra : List InfraConfigEntry)
    (providers : List String) (k v : String)
    (hbind : (k, v) ∈ builtFieldBindings (buildCurrentConfigs infra providers))
    (habsent : ∀ e ∈ infra, e.name ≠ k) : v = "" := by
  have heq : builtFieldBindings (buildCurrentConfigs infra providers) =
      builtBindingKeys.map (fun key => (key, getFieldValue infra key)) := rfl
  rw [heq] at hbind
  obtain ⟨a, _, hpair⟩ := List.mem_map.mp hbind
  rw [Prod.mk.injEq] at hpair
  obtain ⟨rfl, rfl⟩ := hpair
  exact getFieldValue_eq_empty infra _ habsent

/-- Witness for C7 at a concrete input: the empty fetched list binds the
GOOGLE_CLIENT_ID field to the empty string. -/
theorem builder_defaults_missing_keys_witness : ("" : String) = "" :=
  builder_defaults_missing_keys [] [] "GOOGLE_CLIENT_ID" "" (by decide)
    (by intro e he; cases he)

/-- C10: with the optional updatedConfigs argument absent, the infra-config
reverse transform is empty, all four auth-provider directives carry DISABLE,
and the data-sharing toggle sends DISABLE. -/
theorem none_updatedConfigs_defaults :
    updatedInfraConfigs none = [] ∧
    updatedAllowedAuthProviders none =
      [{ provider := "GOOGLE", status := "DISABLE" },
       { provider := "MICROSOFT", status := "DISABLE" },
       { provider := "GITHUB", status := "DISABLE" },
       { provider := "EMAIL", status := "DISABLE" }] ∧
    dataSharingStatus none = "DISABLE" :=
  ⟨rfl, rfl, rfl⟩

/-- Membership in a conditional block implies the condition held and
membership in the block. -/
theorem mem_of_mem_ite_nil {b : Bool} {l : List String} {k : String}
    (h : k ∈ if b = true then l else []) : b = true ∧ k ∈ l := by
  cases b
  · simp at h
  · exact ⟨rfl, by simpa using h⟩

/-- Every key name of the reverse transform output belongs to some enabled
section. -/
theorem exists_enabled_section_of_mem_names (c : Config) (k : String)
    (hmem : k ∈ (updatedInfraConfigs (some c)).map (fun e => e.name)) :
    ∃ s : SectionId, sectionEnabled c s = true ∧ k ∈ sectionKeys s := by
  rw [updatedInfraConfigs_names_eq] at hmem
  simp only [List.mem_append] at hmem
  rcases hmem with ((((h | h) | h) | h) | h)
  · obtain ⟨hb, hk⟩ := mem_of_mem_ite_nil h
    exact ⟨SectionId.google, hb, hk⟩
  · obtain ⟨hb, hk⟩ := mem_of_mem_ite_nil h
    exact ⟨SectionId.microsoft, hb, hk⟩
  · obtain ⟨hb, hk⟩ := mem_of_mem_ite_nil h
    exact ⟨SectionId.github, hb, hk⟩
  · obtain ⟨hb, hk⟩ := mem_of_mem_ite_nil h
    exact ⟨SectionId.oidc, hb, hk⟩
  · obtain ⟨hb, hk⟩ := mem_of_mem_ite_nil h
    exact ⟨SectionId.mail, hb, hk⟩

/-- C3: for every Config whose given section is disabled, none of that
sections key names occurs in the infra-config reverse transform output,
whatever string values the section stores. -/
theorem disabled_section_keys_absent (c : Config) (sec : SectionId)
    (h : sectionEnabled c sec = false) :
    ∀ k ∈ sectionKeys sec,
      k ∉ (updatedInfraConfigs (some c)).map (fun e => e.name) := by
  intro k hk hmem
  obtain ⟨s, hs, hks⟩ := exists_enabled_section_of_mem_names c k hmem
  cases s <;> cases sec <;>
    simp only [sectionEnabled] at hs h <;>
    simp only [sectionKeys] at hks hk <;>
    first
      | (rw [h] at hs; exact absurd hs (by simp))
      | (fin_cases hks <;> simp_all)

/-- Witness for C3 at a concrete input: with every section of
sampleDisabledConfig disabled but holding non-empty values, GOOGLE_CLIENT_ID
does not occur in the reverse transform output. -/
theorem disabled_section_keys_absent_witness :
    "GOOGLE_CLIENT_ID" ∉
      (updatedInfraConfigs (some sampleDisabledConfig)).map (fun e => e.name) :=
  disabled_section_keys_absent sampleDisabledConfig SectionId.google rfl
    "GOOGLE_CLIENT_ID" (by decide)

/-- C5: the validator returns true exactly when one of the github, google,
microsoft or mail sections is enabled and stores a field whose trimmed value
is the empty string; disabled sections are exempt, and the oidc and
data-sharing parts of the Config do not occur in the condition at all. -/
theorem AreAnyConfigFieldsEmpty_iff (c : Config) :
    AreAnyConfigFieldsEmpty c = true ↔
      (c.providers.github.enabled = true ∧
        (c.providers.github.fields.client_id.trim = "" ∨
         c.providers.github.fields.client_secret.trim = "" ∨
         c.providers.github.fields.callback_url.trim = "" ∨
         c.providers.github.fields.scope.trim = "")) ∨
      (c.providers.google.enabled = true ∧
        (c.providers.google.fields.client_id.trim = "" ∨
         c.providers.google.fields.client_secret.trim = "" ∨
         c.providers.google.fields.callback_url.trim = "" ∨
         c.providers.google.fields.scope.trim = "")) ∨
      (c.providers.microsoft.enabled = true ∧
        (c.providers.microsoft.fields.client_id.trim = "" ∨
         c.providers.microsoft.fields.client_secret.trim = "" ∨
         c.providers.microsoft.fields.callback_url.trim = "" ∨
         c.providers.microsoft.fields.scope.trim = "" ∨
         c.providers.microsoft.fields.tenant.trim = "")) ∨
      (c.mailConfigs.enabled = true ∧
        (c.mailConfigs.fields.mailer_smtp_url.trim = "" ∨
         c.mailConfigs.fields.mailer_from_address.trim = "")) := by
  simp [AreAnyConfigFieldsEmpty, standardToSection, microsoftToSection,
    mailToSection, objectValues, isFieldEmpty, Bool.and_eq_true, Bool.or_eq_true,
    and_assoc, or_assoc]

/-- C6: the infra-config reverse transform output is the concatenation of the
enabled section blocks in declaration order google, microsoft, github, oidc,
mail (each block keeping its fixed internal key order), and the empty-named
placeholder seed never occurs in the result. -/
theorem updatedInfraConfigs_order_and_no_placeholder (c : Config) :
    updatedInfraConfigs (some c) =
      (if c.providers.google.enabled then googleEntries c else []) ++
      (if c.providers.microsoft.enabled then microsoftEntries c else []) ++
      (if c.providers.github.enabled then githubEntries c else []) ++
      (if c.providers.oidc.enabled then oidcEntries c else []) ++
      (if c.mailConfigs.enabled then mailEntries c else []) ∧
    ∀ e ∈ updatedInfraConfigs (some c), e.name ≠ "" := by
  refine ⟨updatedInfraConfigs_eq_sections c, ?_⟩
  intro e he hname
  have hmem : e.name ∈ (updatedInfraConfigs (some c)).map (fun x => x.name) :=
    List.mem_map_of_mem _ he
  obtain ⟨s, _, hks⟩ := exists_enabled_section_of_mem_names c e.name hmem
  rw [hname] at hks
  cases s <;> simp [sectionKeys] at hks

/-- C8: the dispatcher returns false and fires exactly one toast carrying the
caller-supplied key when the mutation result holds an error, returns true
with no toast otherwise, and the four call sites pass exactly the keys
configs.auth_providers.update_failure, configs.mail_configs.update_failure,
configs.reset.failure and configs.data_sharing.update_failure. -/
theorem executeMutation_spec :
    (∀ (V : Type) (mutation : V → MutationResult) (vars : V) (errorMessage : String),
       ((mutation vars).error.isSome = true →
          executeMutation mutation vars errorMessage = (false, [errorMessage])) ∧
       ((mutation vars).error = none →
          executeMutation mutation vars errorMessage = (true, []))) ∧
    (∀ (oc : Option Config) (m : List AuthProviderDirective → MutationResult),
       updateAuthProvider oc m =
         executeMutation m (updatedAllowedAuthProviders oc)
           "configs.auth_providers.update_failure") ∧
    (∀ (oc : Option Config) (m : List UpdatedConfigs → MutationResult),
       updateInfraConfigs oc m =
         executeMutation m (updatedInfraConfigs oc)
           "configs.mail_configs.update_failure") ∧
    (∀ m : Unit → MutationResult,
       resetInfraConfigs m = executeMutation m () "configs.reset.failure") ∧
    (∀ (oc : Option Config) (m : String → MutationResult),
       updateDataSharingConfigs oc m =
         executeMutation m (dataSharingStatus oc)
           "configs.data_sharing.update_failure") := by
  refine ⟨fun V mutation vars errorMessage => ⟨?_, ?_⟩, fun _ _ => rfl,
    fun _ _ => rfl, fun _ => rfl, fun _ _ => rfl⟩
  · intro h
    rcases herr : (mutation vars).error with _ | msg
    · rw [herr] at h
      simp at h
    · simp [executeMutation, herr]
  · intro h
    simp [executeMutation, h]

/-- Witness for C8 at a concrete input: a mutation resolving with an error
makes the dispatcher return false and fire the supplied key once. -/
theorem executeMutation_spec_witness :
    executeMutation (fun _ : Unit => { error := some "boom" }) ()
        "configs.reset.failure" =
      (false, ["configs.reset.failure"]) :=
  (executeMutation_spec.1 Unit (fun _ => { error := some "boom" }) ()
    "configs.reset.failure").1 rfl

/-- C9: when a dispatched update operation fails (the dispatcher returns
false), the currentConfigs and workingConfigs state is returned unchanged by
every one of the four update operations. -/
theorem update_ops_preserve_state (s : HandlerState) (oc : Option Config) :
    (∀ m, (updateAuthProviderSt s oc m).1.1 = false →
       (updateAuthProviderSt s oc m).2 = s) ∧
    (∀ m, (updateInfraConfigsSt s oc m).1.1 = false →
       (updateInfraConfigsSt s oc m).2 = s) ∧
    (∀ m, (resetInfraConfigsSt s m).1.1 = false →
       (resetInfraConfigsSt s m).2 = s) ∧
    (∀ m, (updateDataSharingConfigsSt s oc m).1.1 = false →
       (updateDataSharingConfigsSt s oc m).2 = s) :=
  ⟨fun _ _ => rfl, fun _ _ => rfl, fun _ _ => rfl, fun _ _ => rfl⟩

/-- Witness for C9 at a concrete input: a failing provider update leaves the
state record unchanged. -/
theorem update_ops_preserve_state_witness :
    (updateAuthProviderSt { currentConfigs := none, workingConfigs := none } none
        (fun _ => { error := some "network" })).1.1 = false ∧
    (updateAuthProviderSt { currentConfigs := none, workingConfigs := none } none
        (fun _ => { error := some "network" })).2 =
      { currentConfigs := none, workingConfigs := none } :=
  ⟨rfl,
    (update_ops_preserve_state { currentConfigs := none, workingConfigs := none }
      none).1 (fun _ => { error := some "network" }) rfl⟩

end ConfigHandler
